import Mathlib

/-!
Verification of the UI components of this repository against their
specification: the columns picker (src/ui/advancedFilter/ColumnsButton.tsx,
first document), the desktop profile menu
(src/ui/snippets/user/profile/UserProfileDesktop.tsx) and the address
details panel (src/ui/advancedFilter/ColumnsButton.tsx, second document).
The components are shallowly embedded: event handlers become pure
functions from their inputs to a description of the effects or of the
rendered output.
-/

/-! ## ColumnsPicker (ColumnsButton.tsx, first document) -/

/-- The handler `onCheckboxClick` of ColumnsButton.tsx: it copies the
visibility map with a record spread, overwrites the entry of the checkbox
id with the checked flag carried by the change event, and hands the new
map to the callback. A `Record` over the closed key set `ColumnsIds` is
embedded as a total function `K → Bool`; building a new function mirrors
the spread copy, so the argument map is never mutated. -/
def onCheckboxClick {K : Type} [DecidableEq K]
    (columns : K → Bool) (id : K) (checked : Bool) : K → Bool :=
  fun j => if j = id then checked else columns j

/-- A browser change event on the checkbox of key `k`: the checkbox is
rendered with `defaultChecked = columns[k]`, and a change event fires with
the flipped checked state, so the handler receives `!(columns k)`. -/
def checkboxChangeEvent {K : Type} [DecidableEq K]
    (columns : K → Bool) (k : K) : K → Bool :=
  onCheckboxClick columns k (!(columns k))

/-! ## ProfileMenu (UserProfileDesktop.tsx) -/

/-- Modelled from the spec: ProfileData is opaque and externally supplied;
only its presence or absence drives the branching of the click handler. -/
structure ProfileData where
  payload : String
deriving DecidableEq

/-- The side effects a single click of the profile trigger can perform. -/
structure ClickEffects where
  menuOpened : Bool
  walletStarted : Bool
  authDialogOpened : Bool
deriving DecidableEq

/-- The handler `handleProfileButtonClick` of UserProfileDesktop.tsx:
if `profileQuery.data` is truthy it opens the profile menu and returns
early; otherwise, if the current `router.pathname` is the app detail route
it starts the wallet sign-in flow and returns early; otherwise it opens
the auth modal. -/
def handleProfileButtonClick
    (profileData : Option ProfileData) (pathname : String) : ClickEffects :=
  if profileData.isSome then
    { menuOpened := true, walletStarted := false, authDialogOpened := false }
  else if pathname = "/apps/[id]" then
    { menuOpened := false, walletStarted := true, authDialogOpened := false }
  else
    { menuOpened := false, walletStarted := false, authDialogOpened := true }

/-- How many of the three side effects a click performed. -/
def effectCount (e : ClickEffects) : Nat :=
  (if e.menuOpened then 1 else 0) +
  (if e.walletStarted then 1 else 0) +
  (if e.authDialogOpened then 1 else 0)

/-! ## Claims about ColumnsPicker and ProfileMenu -/

/-- C1. ColumnsPicker toggle: for every visibility map M and key k, the
change event of the checkbox of k hands the callback a new map equal to M
except that the value at k is negated; the map is built from a copy, so
the input map is unchanged (in this pure embedding, `columns` itself is
untouched by construction). -/
theorem columns_toggle_negates {K : Type} [DecidableEq K]
    (M : K → Bool) (k : K) :
    checkboxChangeEvent M k k = !(M k) ∧
    ∀ j, j ≠ k → checkboxChangeEvent M k j = M j := by
  constructor
  · simp [checkboxChangeEvent, onCheckboxClick]
  · intro j hj
    simp [checkboxChangeEvent, onCheckboxClick, hj]

/-- Witness for C1 at a concrete map over the two-element key type. -/
theorem columns_toggle_negates_witness :
    checkboxChangeEvent (fun _ : Bool => false) true true = true ∧
    checkboxChangeEvent (fun _ : Bool => false) true false = false :=
  ⟨(columns_toggle_negates (fun _ : Bool => false) true).1,
   (columns_toggle_negates (fun _ : Bool => false) true).2 false (by decide)⟩

/-- C2. ProfileMenu click handler: for every state (profile data present
or absent, any current route), a single click performs exactly one of the
three side effects. -/
theorem profile_click_exactly_one_effect
    (profileData : Option ProfileData) (pathname : String) :
    effectCount (handleProfileButtonClick profileData pathname) = 1 := by
  unfold handleProfileButtonClick effectCount
  rcases profileData with _ | d
  · by_cases h : pathname = "/apps/[id]" <;> simp [h]
  · simp

/-- C3. ProfileMenu: whenever profile data is present, a click opens the
profile menu popover and never starts the wallet sign-in flow nor opens
the auth dialog, regardless of the route. -/
theorem profile_present_opens_menu_only
    (d : ProfileData) (pathname : String) :
    (handleProfileButtonClick (some d) pathname).menuOpened = true ∧
    (handleProfileButtonClick (some d) pathname).walletStarted = false ∧
    (handleProfileButtonClick (some d) pathname).authDialogOpened = false := by
  unfold handleProfileButtonClick
  simp

/-- C4. ProfileMenu: with profile data absent and the app detail route
`/apps/[id]` current, a click starts the wallet sign-in flow and does not
open the auth dialog. -/
theorem profile_absent_app_route_starts_wallet :
    (handleProfileButtonClick none "/apps/[id]").walletStarted = true ∧
    (handleProfileButtonClick none "/apps/[id]").authDialogOpened = false ∧
    (handleProfileButtonClick none "/apps/[id]").menuOpened = false := by
  decide

/-! ## AddressDetailsPanel (ColumnsButton.tsx, second document) -/

/-- The state of one remote query as exposed by the query library: per
query, loading, error and success are mutually exclusive. -/
inductive QueryState (A : Type) where
  | loading
  | error
  | success (data : A)
deriving DecidableEq

/-- The `isLoading` flag of a query result. -/
def QueryState.isLoading {A : Type} : QueryState A → Bool
  | .loading => true
  | _ => false

/-- The `isError` flag of a query result. -/
def QueryState.isError {A : Type} : QueryState A → Bool
  | .error => true
  | _ => false

/-- The `data` field of a query result, absent unless the query
succeeded. -/
def QueryState.dataOf {A : Type} : QueryState A → Option A
  | .success a => some a
  | _ => none

/-- Modelled from the spec: the address payload of the externally managed
address info query (types/api/address is outside the excerpt); the panel
reads only its `hash` field. -/
structure TAddress where
  hash : String
deriving DecidableEq

/-- The counters payload: the four count fields the panel reads, each a
string as delivered by the API. -/
structure AddressCounters where
  validations_count : String
  transactions_count : String
  token_transfers_count : String
  gas_usage_count : String
deriving DecidableEq

/-- Modelled from the spec: an opaque token balance record
(types/api/address is outside the excerpt); the panel only passes the
records through and tests list emptiness. -/
structure AddressTokenBalance where
  payload : String
deriving DecidableEq

/-- The per entity URL path templates of one explorer mirror site from
the configuration object, each possibly undefined. -/
structure ExplorerPaths where
  tx : Option String
  address : Option String
deriving DecidableEq

/-- One explorer mirror site from `appConfig.network.explorers`. -/
structure Explorer where
  title : String
  baseUrl : String
  paths : ExplorerPaths
deriving DecidableEq

/-- JavaScript truthiness of a value of type string-or-undefined:
undefined and the empty string are falsy. -/
def jsTruthyStr (s : Option String) : Bool :=
  match s with
  | none => false
  | some t => !t.isEmpty

/-- JavaScript coercion of a string-or-undefined value to a string, as in
template interpolation and the `+` operator: undefined prints as the word
undefined. -/
def jsStringOf (s : Option String) : String :=
  match s with
  | none => "undefined"
  | some t => t

/-- The value of a list of decimal digit characters, or `none` when the
list is empty or holds a non digit. -/
def digitsVal (cs : List Char) : Option Nat :=
  if !cs.isEmpty && cs.all Char.isDigit then
    some (cs.foldl (fun a c => a * 10 + (c.toNat - '0'.toNat)) 0)
  else
    none

/-- Model of the JavaScript `Number(string)` conversion restricted to the
shapes relevant to API count strings: the empty string converts to 0, an
optionally signed string of decimal digits converts to the corresponding
integer, and anything else is NaN, embedded as `none`. Whitespace
trimming, fractions, exponents and hex literals are outside the modelled
subset. -/
def jsNumber (s : String) : Option Int :=
  match s.data with
  | [] => some 0
  | c :: cs =>
    if c = '-' then (digitsVal cs).map (fun n => -(n : Int))
    else if c = '+' then (digitsVal cs).map (fun n => (n : Int))
    else (digitsVal (c :: cs)).map (fun n => (n : Int))

/-- The JavaScript test `Object.is(v, NaN)` on a number obtained from
`Number(string)`. -/
def jsIsNaN (v : Option Int) : Bool :=
  v.isNone

/-- The JavaScript comparison `v > 0` on such a number: any comparison
with NaN is false. -/
def jsGtZero (v : Option Int) : Bool :=
  match v with
  | none => false
  | some n => decide (0 < n)

/-- The panel constant `validationsCount = Number(countersQuery.data.validations_count)`. -/
def validationsCount (s : String) : Option Int :=
  jsNumber s

/-- The Blocks validated line: rendered exactly under the guard
`!Object.is(validationsCount, NaN) && validationsCount > 0`, in which case
it shows the parsed number (display formatting is out of scope). -/
def blocksValidatedLine (s : String) : Option Int :=
  if !jsIsNaN (validationsCount s) && jsGtZero (validationsCount s) then
    validationsCount s
  else
    none

/-- The filtered list `appConfig.network.explorers.filter(({ paths }) => paths.address)`. -/
def explorers (cfg : List Explorer) : List Explorer :=
  cfg.filter (fun e => jsTruthyStr e.paths.address)

/-- One outbound link of the Verify with other explorers row, kept as the
two arguments of the `new URL(explorer.paths.tx + '/' + router.query.id,
explorer.baseUrl)` call. -/
structure ExternalLinkView where
  title : String
  urlPath : String
  urlBase : String
deriving DecidableEq

/-- The link built for one explorer that passed the filter. -/
def explorerLink (e : Explorer) (routeId : Option String) : ExternalLinkView :=
  { title := e.title
  , urlPath := jsStringOf e.paths.tx ++ "/" ++ jsStringOf routeId
  , urlBase := e.baseUrl }

/-- The Verify with other explorers row: rendered only when the filtered
explorer list is non empty, with one link per surviving explorer. -/
def explorersSectionOf (cfg : List Explorer) (routeId : Option String) :
    Option (List ExternalLinkView) :=
  if (explorers cfg).length > 0 then
    some ((explorers cfg).map (fun e => explorerLink e routeId))
  else
    none

/-- The Tokens cell: a dash placeholder, or a token selector (mobile or
desktop) together with the wallet button. -/
inductive TokensCell where
  | dash
  | selector (isMobile : Bool) (data : List AddressTokenBalance)
deriving DecidableEq

/-- The Tokens cell content: `tokenBalancesQuery.data.length > 0` selects
the selector, otherwise the dash. -/
def tokensCell (isMobile : Bool) (data : List AddressTokenBalance) : TokensCell :=
  if data.length > 0 then .selector isMobile data else .dash

/-- The summary view rendered once all three queries have data: the hash
row, the optional explorers row, the Tokens cell, the three count lines
(kept as the parsed numbers; locale formatting is out of scope), the raw
gas usage string (arbitrary precision formatting is out of scope) and the
optional Blocks validated line. -/
structure SummaryView where
  hash : String
  explorersRow : Option (List ExternalLinkView)
  tokens : TokensCell
  transactions : Option Int
  transfers : Option Int
  gasUsed : String
  blocksValidated : Option Int
deriving DecidableEq

/-- The summary view built from the three payloads, the route id, the
explorer configuration and the mobile flag. -/
def mkSummary (a : TAddress) (c : AddressCounters)
    (t : List AddressTokenBalance) (routeId : Option String)
    (cfg : List Explorer) (isMobile : Bool) : SummaryView :=
  { hash := a.hash
  , explorersRow := explorersSectionOf cfg routeId
  , tokens := tokensCell isMobile t
  , transactions := jsNumber c.transactions_count
  , transfers := jsNumber c.token_transfers_count
  , gasUsed := c.gas_usage_count
  , blocksValidated := blocksValidatedLine c.validations_count }

/-- What the AddressDetails component returns. -/
inductive AddressDetailsRender where
  | skeleton
  | dataFetchAlert
  | summary (s : SummaryView)
deriving DecidableEq

/-- The AddressDetails component body: the skeleton when
`countersQuery.isLoading || addressQuery.isLoading || tokenBalancesQuery.isLoading`,
else the DataFetchAlert when
`countersQuery.isError || addressQuery.isError || tokenBalancesQuery.isError`,
else the summary built from the three payloads. The fallthrough arm of
the final match is unreachable: past both guards every query is a
success. -/
def AddressDetails (addressQuery : QueryState TAddress)
    (countersQuery : QueryState AddressCounters)
    (tokenBalancesQuery : QueryState (List AddressTokenBalance))
    (routeId : Option String) (cfg : List Explorer) (isMobile : Bool) :
    AddressDetailsRender :=
  if countersQuery.isLoading || addressQuery.isLoading || tokenBalancesQuery.isLoading then
    .skeleton
  else if countersQuery.isError || addressQuery.isError || tokenBalancesQuery.isError then
    .dataFetchAlert
  else
    match addressQuery.dataOf, countersQuery.dataOf, tokenBalancesQuery.dataOf with
    | some a, some c, some t => .summary (mkSummary a c t routeId cfg isMobile)
    | _, _, _ => .skeleton

/-! ### The two derived queries -/

/-- Modelled from the spec: the query key tags of the two derived queries
(types/client/queries is outside the excerpt). -/
inductive QueryKeys where
  | addressCounters
  | addressTokenBalances
deriving DecidableEq

/-- A derived query as configured by the component: its key pair, its
HTTP method, its request URL and its enabled flag. The method is
modelled from the spec: the generic fetch hook (lib/hooks/useFetch is
outside the excerpt) performs a GET when called with a bare URL. -/
structure QueryDescriptor where
  keyTag : QueryKeys
  keyId : Option String
  method : String
  url : String
  enabled : Bool
deriving DecidableEq

/-- The counters query of the component: keyed by
`[ QueryKeys.addressCounters, router.query.id ]`, fetching
`/node-api/addresses/id/counters` with the route id interpolated, enabled
under `Boolean(router.query.id) && Boolean(addressQuery.data)`. -/
def countersQuery (routeId : Option String)
    (addressQuery : QueryState TAddress) : QueryDescriptor :=
  { keyTag := .addressCounters
  , keyId := routeId
  , method := "GET"
  , url := "/node-api/addresses/" ++ jsStringOf routeId ++ "/counters"
  , enabled := jsTruthyStr routeId && addressQuery.dataOf.isSome }

/-- The token balances query of the component: keyed by
`[ QueryKeys.addressTokenBalances, router.query.id ]`, fetching
`/node-api/addresses/id/token-balances` with the route id interpolated,
enabled under `Boolean(router.query.id) && Boolean(addressQuery.data)`. -/
def tokenBalancesQuery (routeId : Option String)
    (addressQuery : QueryState TAddress) : QueryDescriptor :=
  { keyTag := .addressTokenBalances
  , keyId := routeId
  , method := "GET"
  , url := "/node-api/addresses/" ++ jsStringOf routeId ++ "/token-balances"
  , enabled := jsTruthyStr routeId && addressQuery.dataOf.isSome }

/-! ## Fixtures for concrete evaluations -/

/-- A sample address payload. -/
def sampleAddress : TAddress :=
  { hash := "0xabc" }

/-- A sample counters payload with a zero validations count. -/
def sampleCounters : AddressCounters :=
  { validations_count := "0"
  , transactions_count := "12"
  , token_transfers_count := "3"
  , gas_usage_count := "100" }

/-- A sample explorer with distinct transaction and address path
templates. -/
def sampleExplorer : Explorer :=
  { title := "E"
  , baseUrl := "https://e.io"
  , paths := { tx := some "/tx", address := some "/address" } }

/-! ## Claims about AddressDetailsPanel -/

/-- C5. If any one of the three queries is loading, the component returns
the skeleton placeholder and renders none of the summary fields. -/
theorem loading_shows_skeleton
    (aq : QueryState TAddress) (cq : QueryState AddressCounters)
    (tq : QueryState (List AddressTokenBalance)) (routeId : Option String)
    (cfg : List Explorer) (m : Bool)
    (h : aq.isLoading = true ∨ cq.isLoading = true ∨ tq.isLoading = true) :
    AddressDetails aq cq tq routeId cfg m = .skeleton ∧
    ∀ s, AddressDetails aq cq tq routeId cfg m ≠ .summary s := by
  have hg : (cq.isLoading || aq.isLoading || tq.isLoading) = true := by
    rcases h with h | h | h <;> simp [h]
  unfold AddressDetails
  simp [hg]

/-- Witness for C5: the address query loading forces the skeleton. -/
theorem loading_shows_skeleton_witness :
    AddressDetails .loading (.success sampleCounters) (.success []) none [] false
      = .skeleton ∧
    ∀ s, AddressDetails .loading (.success sampleCounters) (.success []) none [] false
      ≠ .summary s :=
  loading_shows_skeleton _ _ _ _ _ _ (Or.inl rfl)

/-- C6 counterexample: the counters query is in the error state while the
address query is still loading, yet the component renders the skeleton,
not the fetch failure notice. -/
theorem error_alert_counterexample :
    (QueryState.error : QueryState AddressCounters).isError = true ∧
    AddressDetails .loading .error (.success []) none [] false = .skeleton ∧
    AddressDetails .loading .error (.success []) none [] false ≠ .dataFetchAlert := by
  refine ⟨rfl, rfl, ?_⟩
  decide

/-- C6 amended: if any of the three queries is in an error state and none
is loading, the component renders the generic fetch failure notice
instead of the summary view. -/
theorem error_shows_alert
    (aq : QueryState TAddress) (cq : QueryState AddressCounters)
    (tq : QueryState (List AddressTokenBalance)) (routeId : Option String)
    (cfg : List Explorer) (m : Bool)
    (he : aq.isError = true ∨ cq.isError = true ∨ tq.isError = true)
    (hl : aq.isLoading = false ∧ cq.isLoading = false ∧ tq.isLoading = false) :
    AddressDetails aq cq tq routeId cfg m = .dataFetchAlert ∧
    ∀ s, AddressDetails aq cq tq routeId cfg m ≠ .summary s := by
  have hg1 : (cq.isLoading || aq.isLoading || tq.isLoading) = false := by
    simp [hl.1, hl.2.1, hl.2.2]
  have hg2 : (cq.isError || aq.isError || tq.isError) = true := by
    rcases he with h | h | h <;> simp [h]
  unfold AddressDetails
  simp [hg1, hg2]

/-- Witness for C6 amended: an errored address query with the two derived
queries settled yields the notice. -/
theorem error_shows_alert_witness :
    AddressDetails .error (.success sampleCounters) (.success []) none [] false
      = .dataFetchAlert ∧
    ∀ s, AddressDetails .error (.success sampleCounters) (.success []) none [] false
      ≠ .summary s :=
  error_shows_alert _ _ _ _ _ _ (Or.inl rfl) ⟨rfl, rfl, rfl⟩

/-- C7 counterexample: the string "-1" parses to the valid non zero
number -1, yet the Blocks validated line is omitted, because the code
demands a number strictly greater than zero. -/
theorem blocks_validated_counterexample :
    jsNumber "-1" = some (-1) ∧ ((-1 : Int) ≠ 0) ∧
    blocksValidatedLine "-1" = none := by
  decide

/-- C7 amended: the Blocks validated line renders exactly when the
validations count string parses to a valid number strictly greater than
zero; in particular with "0" the line is omitted and with "5" it shows
5. -/
theorem blocks_validated_positive_iff :
    (∀ s : String,
      (∃ n, blocksValidatedLine s = some n) ↔
      (∃ n, jsNumber s = some n ∧ 0 < n)) ∧
    (mkSummary sampleAddress sampleCounters [] none [] false).blocksValidated
      = none ∧
    (mkSummary sampleAddress
        { sampleCounters with validations_count := "5" } [] none [] false).blocksValidated
      = some 5 := by
  refine ⟨fun s => ?_, by decide, by decide⟩
  unfold blocksValidatedLine validationsCount
  cases h : jsNumber s with
  | none => simp [h, jsIsNaN, jsGtZero]
  | some n =>
    by_cases hn : 0 < n
    · simp [h, jsIsNaN, jsGtZero, hn]
    · simp [h, jsIsNaN, jsGtZero, hn]

/-- Witness for C7 amended at the string "7". -/
theorem blocks_validated_positive_iff_witness :
    ∃ n, blocksValidatedLine "7" = some n :=
  (blocks_validated_positive_iff.1 "7").mpr ⟨7, by decide, by decide⟩

/-- C8. The Tokens cell renders the dash placeholder exactly on an empty
token balance list, and a selector on a non empty one; the summary built
from an empty list carries the dash. -/
theorem tokens_cell_dash_or_selector
    (m : Bool) :
    tokensCell m [] = .dash ∧
    (∀ d : List AddressTokenBalance, d ≠ [] → tokensCell m d = .selector m d) ∧
    (mkSummary sampleAddress sampleCounters [] none [] m).tokens = .dash ∧
    (mkSummary sampleAddress sampleCounters [⟨"t"⟩] none [] m).tokens
      = .selector m [⟨"t"⟩] := by
  refine ⟨rfl, fun d hd => ?_, rfl, rfl⟩
  unfold tokensCell
  have hlen : d.length > 0 := List.length_pos.mpr hd
  simp [hlen]

/-- Witness for C8 at the empty and a singleton list. -/
theorem tokens_cell_dash_or_selector_witness :
    tokensCell false [] = TokensCell.dash ∧
    tokensCell false [⟨"t"⟩] = TokensCell.selector false [⟨"t"⟩] :=
  ⟨(tokens_cell_dash_or_selector false).1,
   (tokens_cell_dash_or_selector false).2.1 [⟨"t"⟩] (by decide)⟩

/-- C9 counterexample: both derived queries request URLs carrying the
node-api proxy segment, so neither equals the endpoint path stated by the
claim. -/
theorem derived_queries_url_counterexample :
    (countersQuery (some "0x1") (.success sampleAddress)).url
      = "/node-api/addresses/0x1/counters" ∧
    (countersQuery (some "0x1") (.success sampleAddress)).url
      ≠ "/addresses/0x1/counters" ∧
    (tokenBalancesQuery (some "0x1") (.success sampleAddress)).url
      = "/node-api/addresses/0x1/token-balances" ∧
    (tokenBalancesQuery (some "0x1") (.success sampleAddress)).url
      ≠ "/addresses/0x1/token-balances" := by
  refine ⟨by decide, by decide, by decide, by decide⟩

/-- A query enabled under the component guard has a present route
parameter and address data. -/
theorem enabled_needs_route_and_data (routeId : Option String)
    (aq : QueryState TAddress)
    (h : (jsTruthyStr routeId && aq.dataOf.isSome) = true) :
    routeId.isSome = true ∧ aq.dataOf.isSome = true := by
  have h1 := (Bool.and_eq_true _ _).mp h
  refine ⟨?_, h1.2⟩
  cases routeId with
  | none => simp [jsTruthyStr] at h1
  | some s => rfl

/-- C9 amended: the two derived queries issue GET requests to
`/node-api/addresses/id/counters` and `/node-api/addresses/id/token-balances`,
both keyed by the route derived address identifier, and each is enabled
only when the route parameter is present and the address info query has
data. -/
theorem derived_queries_spec (routeId : Option String)
    (aq : QueryState TAddress) :
    (countersQuery routeId aq).method = "GET" ∧
    (countersQuery routeId aq).url
      = "/node-api/addresses/" ++ jsStringOf routeId ++ "/counters" ∧
    (countersQuery routeId aq).keyTag = .addressCounters ∧
    (countersQuery routeId aq).keyId = routeId ∧
    (tokenBalancesQuery routeId aq).method = "GET" ∧
    (tokenBalancesQuery routeId aq).url
      = "/node-api/addresses/" ++ jsStringOf routeId ++ "/token-balances" ∧
    (tokenBalancesQuery routeId aq).keyTag = .addressTokenBalances ∧
    (tokenBalancesQuery routeId aq).keyId = routeId ∧
    ((countersQuery routeId aq).enabled = true →
      routeId.isSome = true ∧ aq.dataOf.isSome = true) ∧
    ((tokenBalancesQuery routeId aq).enabled = true →
      routeId.isSome = true ∧ aq.dataOf.isSome = true) := by
  refine ⟨rfl, rfl, rfl, rfl, rfl, rfl, rfl, rfl, ?_, ?_⟩ <;>
    exact fun h => enabled_needs_route_and_data routeId aq h

/-- Witness for C9 amended: with route id present and address data
available the enabled guard is discharged. -/
theorem derived_queries_spec_witness :
    (some "0x1" : Option String).isSome = true ∧
    (QueryState.success sampleAddress).dataOf.isSome = true :=
  (derived_queries_spec (some "0x1")
    (.success sampleAddress)).2.2.2.2.2.2.2.2.1 (by decide)

/-- C10. The Verify with other explorers row filters the configured
explorers by a truthy address path template and is omitted exactly when
no explorer has one, yet every rendered link is built from the
transaction path template of the explorer, concatenated with the route
id, not from the address path template by which it was filtered: at the
sample explorer with distinct templates the link path is the transaction
one. -/
theorem explorers_links_use_tx_path (cfg : List Explorer)
    (routeId : Option String) :
    (explorersSectionOf cfg routeId = none ↔
      ∀ e ∈ cfg, jsTruthyStr e.paths.address = false) ∧
    (∀ e ∈ explorers cfg, jsTruthyStr e.paths.address = true) ∧
    (∀ links, explorersSectionOf cfg routeId = some links →
      links = (explorers cfg).map (fun e => explorerLink e routeId)) ∧
    (∀ e ∈ explorers cfg,
      (explorerLink e routeId).urlPath
        = jsStringOf e.paths.tx ++ "/" ++ jsStringOf routeId) ∧
    (explorerLink sampleExplorer (some "0x1")).urlPath = "/tx/0x1" ∧
    (explorerLink sampleExplorer (some "0x1")).urlPath ≠ "/address/0x1" := by
  have hmem : ∀ e ∈ explorers cfg, jsTruthyStr e.paths.address = true := by
    intro e he
    exact (List.mem_filter.mp he).2
  have hempty : explorers cfg = [] ↔
      ∀ e ∈ cfg, jsTruthyStr e.paths.address = false := by
    unfold explorers
    rw [List.filter_eq_nil_iff]
    constructor
    · intro h e he
      have := h e he
      simpa using this
    · intro h e he
      simp [h e he]
  refine ⟨?_, hmem, ?_, ?_, by decide, by decide⟩
  · unfold explorersSectionOf
    by_cases h : (explorers cfg).length > 0
    · simp only [h, if_true]
      constructor
      · intro hc
        exact absurd hc (by simp)
      · intro hall
        have hnil : explorers cfg = [] := hempty.mpr hall
        rw [hnil] at h
        simp at h
    · simp only [h, if_false]
      have hnil : explorers cfg = [] := by
        cases hl : explorers cfg with
        | nil => rfl
        | cons a as => rw [hl] at h; simp at h
      simpa using hempty.mp hnil
  · intro links hl
    unfold explorersSectionOf at hl
    by_cases h : (explorers cfg).length > 0
    · simp only [h, if_true, Option.some_inj] at hl
      exact hl.symm
    · simp [h] at hl
  · intro e _
    rfl

/-- Witness for C10 at a one explorer configuration. -/
theorem explorers_links_use_tx_path_witness :
    jsTruthyStr sampleExplorer.paths.address = true ∧
    (explorerLink sampleExplorer (some "0x1")).urlPath
      = jsStringOf sampleExplorer.paths.tx ++ "/" ++ jsStringOf (some "0x1") :=
  ⟨(explorers_links_use_tx_path [sampleExplorer] (some "0x1")).2.1
      sampleExplorer (by decide),
   (explorers_links_use_tx_path [sampleExplorer] (some "0x1")).2.2.2.1
      sampleExplorer (by decide)⟩
